import Mathlib

/-!
Shallow embedding of `server.py`: a static-file HTTP development server.
The script subclasses the library request handler with two overrides
(CORS header injection in `end_headers`, a `.js` MIME fallback in
`guess_type`) and a `main` that changes to the script's directory,
binds TCP port 8000, prints status lines, tries to open a browser, and
serves until an exception ends the blocking loop.
-/

namespace Server

/-- `PORT = 8000` in `server.py`. -/
def PORT : Nat := 8000

/-- A response header: field name and value. -/
abbrev Header := String × String

/-- State of a request handler while one response's headers are being
assembled: the headers buffered so far by `send_header` calls, and how
many times the library's own header-completion step has run. -/
structure HandlerState where
  headers : List Header
  baseEndHeadersCalls : Nat

/-- `self.send_header(keyword, value)`: buffer one header. -/
def send_header (s : HandlerState) (keyword value : String) : HandlerState :=
  { s with headers := s.headers ++ [(keyword, value)] }

/-- The library's own `end_headers` (the `super().end_headers()` call):
the normal completion step that flushes the buffered headers. -/
def base_end_headers (s : HandlerState) : HandlerState :=
  { s with baseEndHeadersCalls := s.baseEndHeadersCalls + 1 }

/-- `CustomHTTPRequestHandler.end_headers` (server.py lines 17-22): send
the three CORS headers, then run the library completion step once. -/
def end_headers (s : HandlerState) : HandlerState :=
  base_end_headers
    (send_header
      (send_header
        (send_header s "Access-Control-Allow-Origin" "*")
        "Access-Control-Allow-Methods" "GET, POST, OPTIONS")
      "Access-Control-Allow-Headers" "Content-Type")

/-- The three CORS headers, in the order `end_headers` sends them. -/
def corsHeaders : List Header :=
  [("Access-Control-Allow-Origin", "*"),
   ("Access-Control-Allow-Methods", "GET, POST, OPTIONS"),
   ("Access-Control-Allow-Headers", "Content-Type")]

/-- Python `s.endswith(suff)`: case-sensitive suffix test on the
character sequence. -/
def str_endswith (s suff : String) : Bool :=
  suff.data.isSuffixOf s.data

/-- `CustomHTTPRequestHandler.guess_type` (server.py lines 24-28),
parameterized over the library's default extension-to-MIME lookup
`defaultGuess` (the `super().guess_type` call). -/
def guess_type (defaultGuess : String → String) (path : String) : String :=
  if str_endswith path ".js" then "application/javascript"
  else defaultGuess path

/-- A Python exception, as far as `main`'s handlers distinguish them:
`KeyboardInterrupt` versus anything else. -/
inductive Exn
  | keyboardInterrupt
  | other

/-- One observable side effect of `main`, in program order. -/
inductive Event
  | chdir (dir : String)
  | bind (port : Nat)
  | print (line : String)
  | openBrowser (url : String)
  | serve

/-- How a run of the process ends. -/
inductive Outcome
  | exited (code : Nat)
  | uncaught (e : Exn)
  | servingForever

/-- Exit code of an outcome: `sys.exit(0)` gives 0, an uncaught
exception makes the interpreter exit 1, and a serve loop that never
receives an exception blocks forever so the process never exits. -/
def exitCode : Outcome → Option Nat
  | Outcome.exited c => some c
  | Outcome.uncaught _ => some 1
  | Outcome.servingForever => none

/-- The environment one run of `main` meets: the directory containing
the entry script (`os.path.dirname(os.path.abspath(__file__))`), and
which of the three effectful steps raise. `bindError = some e` means
the `TCPServer` constructor raises `e`; `browserError = some e` means
`webbrowser.open` raises `e`; `serveOutcome = some e` means
`serve_forever` is eventually terminated by exception `e`, while
`none` means it blocks forever. -/
structure Env where
  scriptDir : String
  bindError : Option Exn
  browserError : Option Exn
  serveOutcome : Option Exn

/-- The URL passed to `webbrowser.open` (server.py line 49). -/
def browserUrl : String := "http://localhost:" ++ toString PORT ++ "/index.html"

/-- The status lines printed after binding (server.py lines 35-45), in
order. -/
def statusLines : List String :=
  ["ScreenGrid Library Server",
   "=======================",
   "Server running at http://localhost:" ++ toString PORT,
   "",
   "Available examples:",
   "  Main demo:     http://localhost:" ++ toString PORT ++ "/index.html",
   "  Simple test:   http://localhost:" ++ toString PORT ++ "/test.html",
   "  Basic example: http://localhost:" ++ toString PORT ++ "/example.js",
   "",
   "Press Ctrl+C to stop the server",
   ""]

/-- `main` (server.py lines 30-58): change to the script's directory,
construct the bound server, print the status lines, attempt the
browser launch inside a bare `try`/`except`, then run `serve_forever`
catching only `KeyboardInterrupt`. Returns the event trace and the
process outcome. -/
def mainRun (env : Env) : List Event × Outcome :=
  match env.bindError with
  | some e => ([Event.chdir env.scriptDir], Outcome.uncaught e)
  | none =>
    let evts := Event.chdir env.scriptDir :: Event.bind PORT ::
      statusLines.map Event.print
    let evts2 := evts ++ Event.openBrowser browserUrl ::
      (match env.browserError with
        | none => [Event.print "Opening browser..."]
        | some _ => [Event.print "Could not open browser automatically"])
    match env.serveOutcome with
    | none => (evts2 ++ [Event.serve], Outcome.servingForever)
    | some Exn.keyboardInterrupt =>
        (evts2 ++ [Event.serve, Event.print "\nServer stopped."], Outcome.exited 0)
    | some Exn.other => (evts2 ++ [Event.serve], Outcome.uncaught Exn.other)

/-- `server.py` reads neither `sys.argv` nor any environment variable,
so the whole process is `mainRun` regardless of those inputs. -/
def program (argv : List String) (osEnviron : List (String × String))
    (env : Env) : List Event × Outcome :=
  mainRun env

/-- The startup events of a successful bind, through the browser-open
attempt: chdir, bind, the eleven status prints, then the open call. -/
def startupHead (d : String) : List Event :=
  Event.chdir d :: Event.bind PORT ::
    (statusLines.map Event.print ++ [Event.openBrowser browserUrl])

/-- The message printed by the browser `try`/`except` block. -/
def browserMsg : Option Exn → String
  | none => "Opening browser..."
  | some _ => "Could not open browser automatically"

/-- The events of the serve phase, by how `serve_forever` ends. -/
def serveEvents : Option Exn → List Event
  | some Exn.keyboardInterrupt => [Event.serve, Event.print "\nServer stopped."]
  | _ => [Event.serve]

/-- The process outcome of the serve phase. -/
def serveResult : Option Exn → Outcome
  | none => Outcome.servingForever
  | some Exn.keyboardInterrupt => Outcome.exited 0
  | some Exn.other => Outcome.uncaught Exn.other

/-- Characterization of `mainRun` when the bind succeeds. -/
theorem mainRun_bind_ok (env : Env) (hb : env.bindError = none) :
    mainRun env =
      (startupHead env.scriptDir ++
        Event.print (browserMsg env.browserError) ::
          serveEvents env.serveOutcome,
       serveResult env.serveOutcome) := by
  obtain ⟨d, be, bre, so⟩ := env
  have hb2 : be = none := hb
  subst hb2
  cases bre with
  | none =>
    cases so with
    | none => rfl
    | some e => cases e <;> rfl
  | some e0 =>
    cases so with
    | none => rfl
    | some e => cases e <;> rfl

/-- `Event.serve` occurs in the serve phase however it ends. -/
theorem serve_mem_serveEvents (so : Option Exn) :
    Event.serve ∈ serveEvents so := by
  cases so with
  | none => simp [serveEvents]
  | some e => cases e <;> simp [serveEvents]

/-- Two suffixes of the same character list with equal lengths
coincide. -/
theorem suffix_eq_of_length_eq {l a b : List Char} (ha : a <:+ l)
    (hb : b <:+ l) (hlen : a.length = b.length) : a = b := by
  rcases List.suffix_or_suffix_of_suffix ha hb with h | h
  · exact h.eq_of_length hlen
  · exact (h.eq_of_length hlen.symm).symm

/-- Claim C1: for every response, whatever headers are already
buffered, the header-finalization step appends exactly the three fixed
CORS headers, in order and with their exact values, and then delegates
exactly once to the library's normal header-completion step, so every
response carries these headers. -/
theorem end_headers_appends_cors (s : HandlerState) :
    (end_headers s).headers = s.headers ++ corsHeaders ∧
    (end_headers s).baseEndHeadersCalls = s.baseEndHeadersCalls + 1 := by
  constructor
  · simp [end_headers, send_header, base_end_headers, corsHeaders]
  · rfl

/-- Claim C2: for every request path and every library default lookup,
MIME resolution returns the fixed string for paths ending in `.js` and
otherwise returns exactly the library default's result. -/
theorem guess_type_spec (defaultGuess : String → String) (path : String) :
    (str_endswith path ".js" = true →
      guess_type defaultGuess path = "application/javascript") ∧
    (str_endswith path ".js" = false →
      guess_type defaultGuess path = defaultGuess path) := by
  constructor <;> intro h <;> simp [guess_type, h]

/-- Witness for C2 at concrete paths. -/
theorem guess_type_spec_witness :
    guess_type (fun _ => "text/plain") "example.js" = "application/javascript" ∧
    guess_type (fun _ => "text/plain") "index.html" = "text/plain" :=
  ⟨(guess_type_spec (fun _ => "text/plain") "example.js").1 (by decide),
   (guess_type_spec (fun _ => "text/plain") "index.html").2 (by decide)⟩

/-- Claim C9: the MIME override fires only for the exact lowercase
suffix `.js`: a path ending in a case variant such as `.JS`, `.Js`,
`.jS`, or in `.mjs`, is delegated to the library default, so the fixed
string comes back only if the default itself returns it. -/
theorem guess_type_only_exact_js (g : String → String) (p : String)
    (h : str_endswith p ".JS" = true ∨ str_endswith p ".Js" = true ∨
         str_endswith p ".jS" = true ∨ str_endswith p ".mjs" = true) :
    guess_type g p = g p ∧
    (g p ≠ "application/javascript" →
      guess_type g p ≠ "application/javascript") := by
  have hjs : str_endswith p ".js" = false := by
    rw [Bool.eq_false_iff]
    intro hj
    have hj' : ['.', 'j', 's'] <:+ p.data := by
      simpa [str_endswith, show (".js").data = ['.', 'j', 's'] from rfl]
        using hj
    rcases h with h | h | h | h
    · have h' : ['.', 'J', 'S'] <:+ p.data := by
        simpa [str_endswith, show (".JS").data = ['.', 'J', 'S'] from rfl]
          using h
      exact absurd (suffix_eq_of_length_eq hj' h' rfl) (by decide)
    · have h' : ['.', 'J', 's'] <:+ p.data := by
        simpa [str_endswith, show (".Js").data = ['.', 'J', 's'] from rfl]
          using h
      exact absurd (suffix_eq_of_length_eq hj' h' rfl) (by decide)
    · have h' : ['.', 'j', 'S'] <:+ p.data := by
        simpa [str_endswith, show (".jS").data = ['.', 'j', 'S'] from rfl]
          using h
      exact absurd (suffix_eq_of_length_eq hj' h' rfl) (by decide)
    · have h4 : ['.', 'm', 'j', 's'] <:+ p.data := by
        simpa [str_endswith, show (".mjs").data = ['.', 'm', 'j', 's'] from rfl]
          using h
      have h3 : ['m', 'j', 's'] <:+ p.data :=
        List.IsSuffix.trans ⟨['.'], rfl⟩ h4
      exact absurd (suffix_eq_of_length_eq hj' h3 rfl) (by decide)
  refine ⟨by simp [guess_type, hjs], ?_⟩
  intro hne
  simpa [guess_type, hjs] using hne

/-- Witness for C9 at concrete paths. -/
theorem guess_type_only_exact_js_witness :
    guess_type (fun _ => "text/x-default") "module.mjs" = "text/x-default" :=
  (guess_type_only_exact_js (fun _ => "text/x-default") "module.mjs"
    (Or.inr (Or.inr (Or.inr (by decide))))).1

/-- Claim C3: if a `KeyboardInterrupt` reaches the serve loop, the run
prints the stop message and the process exits with code 0. -/
theorem serve_interrupt_exits_zero (env : Env) (hb : env.bindError = none)
    (hs : env.serveOutcome = some Exn.keyboardInterrupt) :
    (mainRun env).2 = Outcome.exited 0 ∧
    exitCode (mainRun env).2 = some 0 ∧
    Event.print "\nServer stopped." ∈ (mainRun env).1 := by
  rw [mainRun_bind_ok env hb, hs]
  refine ⟨rfl, rfl, ?_⟩
  simp [serveEvents]

/-- Witness for C3 at a concrete environment. -/
theorem serve_interrupt_exits_zero_witness :
    (mainRun ⟨"/srv/app", none, none, some Exn.keyboardInterrupt⟩).2 =
      Outcome.exited 0 ∧
    exitCode (mainRun ⟨"/srv/app", none, none,
      some Exn.keyboardInterrupt⟩).2 = some 0 ∧
    Event.print "\nServer stopped." ∈
      (mainRun ⟨"/srv/app", none, none, some Exn.keyboardInterrupt⟩).1 :=
  serve_interrupt_exits_zero
    ⟨"/srv/app", none, none, some Exn.keyboardInterrupt⟩ rfl rfl

/-- Claim C4: if the browser launch raises any exception, the failure
is swallowed: the fallback message is printed, the success message is
not, and the serve loop is still entered. -/
theorem browser_failure_nonfatal (env : Env) (e : Exn)
    (hb : env.bindError = none) (he : env.browserError = some e) :
    Event.print "Could not open browser automatically" ∈ (mainRun env).1 ∧
    Event.print "Opening browser..." ∉ (mainRun env).1 ∧
    Event.serve ∈ (mainRun env).1 := by
  rw [mainRun_bind_ok env hb, he]
  refine ⟨?_, ?_, ?_⟩
  · simp [browserMsg]
  · intro hmem
    rcases List.mem_append.mp hmem with hmem | hmem
    · revert hmem
      simp [startupHead, statusLines]
      decide
    · rcases List.mem_cons.mp hmem with hmem | hmem
      · revert hmem
        simp [browserMsg]
      · revert hmem
        cases hso : env.serveOutcome with
        | none => simp [serveEvents]
        | some e2 => cases e2 <;> simp [serveEvents]
  · simp [serve_mem_serveEvents]

/-- Witness for C4 at a concrete environment. -/
theorem browser_failure_nonfatal_witness :
    Event.print "Could not open browser automatically" ∈
      (mainRun ⟨"/srv/app", none, some Exn.other, none⟩).1 ∧
    Event.print "Opening browser..." ∉
      (mainRun ⟨"/srv/app", none, some Exn.other, none⟩).1 ∧
    Event.serve ∈ (mainRun ⟨"/srv/app", none, some Exn.other, none⟩).1 :=
  browser_failure_nonfatal ⟨"/srv/app", none, some Exn.other, none⟩
    Exn.other rfl rfl

/-- Claim C10: a `KeyboardInterrupt` raised during the browser-launch
attempt is caught by the bare `except` clause: the fallback message is
printed, the serve loop is still entered, and the interrupt never
escapes as an uncaught exception. -/
theorem browser_interrupt_caught (env : Env) (hb : env.bindError = none)
    (he : env.browserError = some Exn.keyboardInterrupt) :
    Event.print "Could not open browser automatically" ∈ (mainRun env).1 ∧
    Event.serve ∈ (mainRun env).1 ∧
    (mainRun env).2 ≠ Outcome.uncaught Exn.keyboardInterrupt := by
  rw [mainRun_bind_ok env hb, he]
  refine ⟨by simp [browserMsg], by simp [serve_mem_serveEvents], ?_⟩
  cases hso : env.serveOutcome with
  | none => simp [serveResult]
  | some e2 => cases e2 <;> simp [serveResult]

/-- Witness for C10 at a concrete environment. -/
theorem browser_interrupt_caught_witness :
    Event.print "Could not open browser automatically" ∈
      (mainRun ⟨"/srv/app", none, some Exn.keyboardInterrupt, none⟩).1 ∧
    Event.serve ∈
      (mainRun ⟨"/srv/app", none, some Exn.keyboardInterrupt, none⟩).1 ∧
    (mainRun ⟨"/srv/app", none, some Exn.keyboardInterrupt, none⟩).2 ≠
      Outcome.uncaught Exn.keyboardInterrupt :=
  browser_interrupt_caught
    ⟨"/srv/app", none, some Exn.keyboardInterrupt, none⟩ rfl rfl

/-- Claim C5: if the bind raises, the run stops at once with the error
uncaught (exit code 1, hence non-zero): the whole trace is the single
directory change, so no listener is bound, nothing is printed, no
browser open is attempted, and the serve loop is never entered. -/
theorem bind_failure_aborts (env : Env) (e : Exn)
    (hb : env.bindError = some e) :
    mainRun env = ([Event.chdir env.scriptDir], Outcome.uncaught e) ∧
    exitCode (mainRun env).2 = some 1 := by
  obtain ⟨d, be, bre, so⟩ := env
  have hb2 : be = some e := hb
  subst hb2
  exact ⟨rfl, rfl⟩

/-- Witness for C5 at a concrete environment. -/
theorem bind_failure_aborts_witness :
    mainRun ⟨"/srv/app", some Exn.other, none, none⟩ =
      ([Event.chdir "/srv/app"], Outcome.uncaught Exn.other) ∧
    exitCode (mainRun ⟨"/srv/app", some Exn.other, none, none⟩).2 =
      some 1 :=
  bind_failure_aborts ⟨"/srv/app", some Exn.other, none, none⟩
    Exn.other rfl

/-- Claim C6: on a successful start, the first event is the change to
the script's directory, the second is the bind on port 8000, and the
serve loop is entered strictly afterwards. -/
theorem startup_order (env : Env) (hb : env.bindError = none) :
    (mainRun env).1.head? = some (Event.chdir env.scriptDir) ∧
    (mainRun env).1[1]? = some (Event.bind PORT) ∧
    Event.serve ∈ (mainRun env).1.drop 2 := by
  rw [mainRun_bind_ok env hb]
  refine ⟨rfl, rfl, ?_⟩
  simp [startupHead, serve_mem_serveEvents]

/-- Witness for C6 at a concrete environment. -/
theorem startup_order_witness :
    (mainRun ⟨"/srv/app", none, none, none⟩).1.head? =
      some (Event.chdir "/srv/app") ∧
    (mainRun ⟨"/srv/app", none, none, none⟩).1[1]? =
      some (Event.bind PORT) ∧
    Event.serve ∈ (mainRun ⟨"/srv/app", none, none, none⟩).1.drop 2 :=
  startup_order ⟨"/srv/app", none, none, none⟩ rfl

/-- Claim C7: on a successful start the trace begins with the change
of directory, the bind, the fixed status lines (server URL, the
`index.html`, `test.html` and `example.js` example URLs, the Ctrl-C
instruction), and only then the browser-open attempt at
`http://localhost:8000/index.html`; the serve loop comes strictly
after that whole head. -/
theorem status_then_browser_then_serve (env : Env)
    (hb : env.bindError = none) :
    browserUrl = "http://localhost:8000/index.html" ∧
    statusLines =
      ["ScreenGrid Library Server",
       "=======================",
       "Server running at http://localhost:8000",
       "",
       "Available examples:",
       "  Main demo:     http://localhost:8000/index.html",
       "  Simple test:   http://localhost:8000/test.html",
       "  Basic example: http://localhost:8000/example.js",
       "",
       "Press Ctrl+C to stop the server",
       ""] ∧
    startupHead env.scriptDir <+: (mainRun env).1 ∧
    Event.serve ∉ startupHead env.scriptDir ∧
    Event.serve ∈ (mainRun env).1 := by
  refine ⟨by decide, by decide, ?_, ?_, ?_⟩
  · exact ⟨Event.print (browserMsg env.browserError) ::
      serveEvents env.serveOutcome, (mainRun_bind_ok env hb ▸ rfl : _)⟩
  · simp [startupHead, statusLines]
  · rw [mainRun_bind_ok env hb]
    simp [serve_mem_serveEvents]

/-- Witness for C7 at a concrete environment. -/
theorem status_then_browser_then_serve_witness :
    browserUrl = "http://localhost:8000/index.html" ∧
    statusLines =
      ["ScreenGrid Library Server",
       "=======================",
       "Server running at http://localhost:8000",
       "",
       "Available examples:",
       "  Main demo:     http://localhost:8000/index.html",
       "  Simple test:   http://localhost:8000/test.html",
       "  Basic example: http://localhost:8000/example.js",
       "",
       "Press Ctrl+C to stop the server",
       ""] ∧
    startupHead "/srv/app" <+:
      (mainRun ⟨"/srv/app", none, none, none⟩).1 ∧
    Event.serve ∉ startupHead "/srv/app" ∧
    Event.serve ∈ (mainRun ⟨"/srv/app", none, none, none⟩).1 :=
  status_then_browser_then_serve ⟨"/srv/app", none, none, none⟩ rfl

/-- Claim C8: the program reads no command-line arguments and no
environment variables: two runs differing only in those inputs behave
identically, and the configuration is the fixed port 8000. -/
theorem no_argv_no_environ (argv₁ argv₂ : List String)
    (os₁ os₂ : List (String × String)) (env : Env) :
    program argv₁ os₁ env = program argv₂ os₂ env ∧ PORT = 8000 :=
  ⟨rfl, rfl⟩

end Server
